import Mathlib

/-!
Shallow embedding of `src/backend/app/services/gemini_service.py`
(repository damnbhavya/knowhere).

The service class `GeminiService` exposes two operations,
`generate_response` and `generate_chat_title`, plus a construction-time
credential guard in `__init__`.  Both operations compose a textual prompt,
dispatch it to a remote generative-language API, and post-process the
remote outcome.  We model Python strings as Lean `String` (sequences of
code points, matching Python slicing and length semantics), the remote
call as an oracle `String → RemoteResult` mapping the dispatched prompt
to its outcome, and a raising call path as the `error` constructor.
-/

/-- Outcome of the remote `generate_content` call: either the call raised
(any exception) or it returned a response whose `.text` field is the given
optional string (`none` models a missing/`None` text attribute). -/
inductive RemoteResult where
  | error : RemoteResult
  | success : Option String → RemoteResult
deriving DecidableEq

/-- One entry of `conversation_history`: a dict with keys
`is_user_message` and `content`. -/
structure ConversationTurn where
  is_user_message : Bool
  content : String
deriving DecidableEq

/-- Python truthiness of `response.text`: `None` and the empty string are
falsy, every other string is truthy. -/
def text_truthy : Option String → Bool
  | none => false
  | some s => s ≠ ""

/-- The `mood_prompts` dict of `generate_response`, keys in source order,
template strings verbatim from the source. -/
def default_prompt : String :=
  "You are a helpful, friendly, and balanced AI assistant. âš¡ You provide clear, accurate, and well-structured responses while maintaining a warm and approachable tone. You adapt your communication style to the user\x27s needs, being comprehensive when detail is needed and concise when brevity is preferred. You\x27re knowledgeable, reliable, and always aim to be genuinely helpful."

/-- The `funny` template of `mood_prompts`, verbatim. -/
def funny_prompt : String :=
  "You are a hilarious AI assistant with a great sense of humor! ðŸ˜„ You love making people laugh with witty jokes, puns, and funny observations. Keep your responses entertaining while still being helpful. Use emojis, wordplay, and light-hearted humor. Make conversations enjoyable and memorable! Don\x27t be afraid to be silly and playful."

/-- The `roasting` template of `mood_prompts`, verbatim. -/
def roasting_prompt : String :=
  "You are a witty AI with a sharp tongue and a talent for playful roasting! ðŸ”¥ You deliver clever burns and sarcastic remarks while keeping things fun and not mean-spirited. Your responses should be witty, a bit cheeky, and entertainingly sassy. Roast users playfully while still being helpful. Keep it fun, not hurtful! Think friendly banter, not actual insults."

/-- The `precise` template of `mood_prompts`, verbatim. -/
def precise_prompt : String :=
  "You are a precise, efficient AI assistant. ðŸŽ¯ You provide clear, direct, and concise answers. You focus on accuracy and getting straight to the point without unnecessary fluff. Your responses are well-structured, factual, and exactly what the user needs to know. Be professional and informative."

/-- The `intellectual` template of `mood_prompts`, verbatim. -/
def intellectual_prompt : String :=
  "You are a highly intellectual AI with deep knowledge across many fields. ðŸ§\u00A0 You provide thoughtful, analytical responses that explore topics in depth. You enjoy philosophical discussions, complex problem-solving, and sharing insights. Your responses demonstrate critical thinking, nuanced understanding, and scholarly depth. Reference relevant theories, concepts, and expert perspectives when appropriate."

/-- The `mood_prompts` dict, as an association list in source key order. -/
def mood_prompts : List (String × String) :=
  [("default", default_prompt),
   ("funny", funny_prompt),
   ("roasting", roasting_prompt),
   ("precise", precise_prompt),
   ("intellectual", intellectual_prompt)]

/-- `mood_prompts.get(mood, mood_prompts["default"])`: dict lookup with the
`default` template as the fallback value. -/
def system_prompt_for (mood : String) : String :=
  match mood_prompts.lookup mood with
  | some p => p
  | none => default_prompt

/-- Rendering of one history entry inside the context loop:
`f"{role}: {msg.get(\x27content\x27, \x27\x27)}\n"` with role `User` when
`is_user_message` is truthy and `Assistant` otherwise. -/
def render_turn (msg : ConversationTurn) : String :=
  (if msg.is_user_message then "User" else "Assistant") ++ ": " ++ msg.content ++ "\n"

/-- The context accumulation of `generate_response`: starting from the
empty string, append the rendering of each entry of
`conversation_history[-10:]` in order.  Python `l[-10:]` is
`l.drop (l.length - 10)` (the whole list when the length is at most 10,
matching truncated `Nat` subtraction).  The left fold of `++` over the
rendered entries is `String.join` of their list. -/
def build_context (conversation_history : List ConversationTurn) : String :=
  String.join ((conversation_history.drop (conversation_history.length - 10)).map render_turn)

/-- The prompt composition of `generate_response`.  Python tests `if context:`
(truthy iff non-empty) and builds one of the two f-strings of the source. -/
def full_prompt (message : String) (conversation_history : List ConversationTurn)
    (mood : String) : String :=
  if build_context conversation_history ≠ "" then
    system_prompt_for mood ++ "\n\nConversation history:\n"
      ++ build_context conversation_history ++ "\nUser: " ++ message ++ "\nAssistant:"
  else
    system_prompt_for mood ++ "\n\nUser: " ++ message ++ "\nAssistant:"

/-- The fixed fallback returned when the remote call raises. -/
def error_fallback : String :=
  "I\x27m sorry, but I encountered an error while processing your request. Please try again later."

/-- The fixed fallback returned when the remote call succeeds with falsy text. -/
def empty_fallback : String :=
  "I apologize, but I couldn\x27t generate a response at the moment. Please try again."

/-- Python `s.strip()`: remove leading and trailing whitespace code points
(the ASCII whitespace set; Python also strips further Unicode whitespace,
which no claim here depends on). -/
def py_strip (s : String) : String :=
  String.mk (((s.data.dropWhile Char.isWhitespace).reverse.dropWhile Char.isWhitespace).reverse)

/-- `GeminiService.generate_response`: compose the full prompt, dispatch it
to the remote oracle, and post-process.  The `try`/`except` of the source
turns a raising call into the error fallback; a successful response with
truthy text is returned stripped; falsy text yields the apology fallback.
The function is total: no path raises to the caller. -/
def generate_response (message : String) (conversation_history : List ConversationTurn)
    (mood : String) (remote : String → RemoteResult) : String :=
  match remote (full_prompt message conversation_history mood) with
  | RemoteResult.error => error_fallback
  | RemoteResult.success t =>
      if text_truthy t then py_strip (t.getD "")
      else empty_fallback

/-- The f-string prompt of `generate_chat_title`, verbatim (the source
triple-quoted literal keeps the 12-space indentation of its second line). -/
def chat_title_prompt (first_message : String) : String :=
  "Generate a short, descriptive title (3-6 words) for a conversation that starts with this message: \""
    ++ first_message
    ++ "\"\n\n            The title should capture the main topic or theme. Return only the title, no additional text."

/-- Python `s.replace(c, "")` for a one-character needle: delete every
occurrence of that code point. -/
def py_replace_del (needle : Char) (s : String) : String :=
  String.mk (s.data.filter (fun c => c ≠ needle))

/-- Python `s[:50]`: the first 50 code points of the string. -/
def py_slice50 (s : String) : String :=
  String.mk (s.data.take 50)

/-- The double-quote character removed first by `generate_chat_title`. -/
def dquote : Char := Char.ofNat 34

/-- The single-quote character removed second by `generate_chat_title`. -/
def squote : Char := Char.ofNat 39

/-- `GeminiService.generate_chat_title`: compose the title prompt, dispatch
it, and post-process.  Truthy text is stripped, stripped of double then
single quotes, and sliced to the first 50 characters; falsy text and any
raising call both yield the fixed `New Conversation` fallback. -/
def generate_chat_title (first_message : String) (remote : String → RemoteResult) : String :=
  match remote (chat_title_prompt first_message) with
  | RemoteResult.error => "New Conversation"
  | RemoteResult.success t =>
      if text_truthy t then
        py_slice50 (py_replace_del squote (py_replace_del dquote (py_strip (t.getD ""))))
      else "New Conversation"

/-- The placeholder literal rejected by the constructor guard. -/
def api_key_placeholder : String := "your_gemini_api_key_here"

/-- The constructor guard message of `GeminiService.__init__`. -/
def guard_error_message : String :=
  "GEMINI_API_KEY not found or not set properly in environment variables"

/-- The credential resolution and guard of `GeminiService.__init__`.  The
environment is `none` when `GEMINI_API_KEY` is unset: `config` (from
`decouple`, outside this repository) then raises an undefined-variable
error, so construction fails before the guard.  A present value hits the
source guard `if not self.api_key or self.api_key == "your_gemini_api_key_here"`,
which raises `ValueError` with `guard_error_message`; any other value
passes the guard and construction proceeds. -/
def init_api_key_check (env : Option String) : Except String String :=
  match env with
  | none => Except.error "GEMINI_API_KEY undefined"
  | some key =>
      if key = "" ∨ key = api_key_placeholder then Except.error guard_error_message
      else Except.ok key

/-- Claim C1: for every message, history and mood, when the remote call
raises, `generate_response` returns exactly the fixed error fallback
string; the operation is total, hence never raises to its caller. -/
theorem generate_response_error_fallback (message : String)
    (conversation_history : List ConversationTurn) (mood : String)
    (remote : String → RemoteResult)
    (h : remote (full_prompt message conversation_history mood) = RemoteResult.error) :
    generate_response message conversation_history mood remote = error_fallback := by
  unfold generate_response
  rw [h]

/-- Claim C1 witness: the error path evaluated at a concrete call. -/
theorem generate_response_error_fallback_witness :
    (fun _ => RemoteResult.error) (full_prompt "Hi" [] "default") = RemoteResult.error ∧
    generate_response "Hi" [] "default" (fun _ => RemoteResult.error) = error_fallback :=
  ⟨rfl, generate_response_error_fallback "Hi" [] "default" (fun _ => RemoteResult.error) rfl⟩

/-- Claim C2: for every message, history and mood, when the remote call
succeeds but its text is empty or missing, `generate_response` returns
exactly the fixed apology fallback, a string distinct from the error
fallback. -/
theorem generate_response_empty_fallback (message : String)
    (conversation_history : List ConversationTurn) (mood : String)
    (remote : String → RemoteResult)
    (h : remote (full_prompt message conversation_history mood) = RemoteResult.success none ∨
         remote (full_prompt message conversation_history mood) = RemoteResult.success (some "")) :
    generate_response message conversation_history mood remote = empty_fallback ∧
    empty_fallback ≠ error_fallback := by
  refine ⟨?_, by decide⟩
  unfold generate_response
  rcases h with h | h <;> rw [h] <;> rfl

/-- Claim C2 witness: the empty-text path evaluated at a concrete call. -/
theorem generate_response_empty_fallback_witness :
    (fun _ => RemoteResult.success none) (full_prompt "Hi" [] "default") =
      RemoteResult.success none ∧
    (generate_response "Hi" [] "default" (fun _ => RemoteResult.success none) = empty_fallback ∧
     empty_fallback ≠ error_fallback) :=
  ⟨rfl, generate_response_empty_fallback "Hi" [] "default"
    (fun _ => RemoteResult.success none) (Or.inl rfl)⟩

/-- Claim C3: each of the five recognized mood tags selects its fixed
system-prompt template, and every unrecognized mood string selects the
default template. -/
theorem mood_prompt_selection :
    (system_prompt_for "default" = default_prompt ∧
     system_prompt_for "funny" = funny_prompt ∧
     system_prompt_for "roasting" = roasting_prompt ∧
     system_prompt_for "precise" = precise_prompt ∧
     system_prompt_for "intellectual" = intellectual_prompt) ∧
    ∀ mood : String,
      mood ∉ ["default", "funny", "roasting", "precise", "intellectual"] →
      system_prompt_for mood = default_prompt := by
  refine ⟨⟨rfl, rfl, rfl, rfl, rfl⟩, ?_⟩
  intro mood hmood
  simp only [List.mem_cons, List.not_mem_nil, or_false, not_or] at hmood
  obtain ⟨h1, h2, h3, h4, h5⟩ := hmood
  have b1 : (mood == "default") = false := beq_eq_false_iff_ne.mpr h1
  have b2 : (mood == "funny") = false := beq_eq_false_iff_ne.mpr h2
  have b3 : (mood == "roasting") = false := beq_eq_false_iff_ne.mpr h3
  have b4 : (mood == "precise") = false := beq_eq_false_iff_ne.mpr h4
  have b5 : (mood == "intellectual") = false := beq_eq_false_iff_ne.mpr h5
  simp [system_prompt_for, mood_prompts, List.lookup, b1, b2, b3, b4, b5]

/-- Claim C3 witness: an unrecognized tag falls back to the default template. -/
theorem mood_prompt_selection_witness :
    "angry" ∉ ["default", "funny", "roasting", "precise", "intellectual"] ∧
    system_prompt_for "angry" = default_prompt :=
  ⟨by decide, mood_prompt_selection.2 "angry" (by decide)⟩

/-- Claim C6: the two-turn history with a user turn `A` and an assistant
turn `B` renders verbatim to the expected context; in general each turn
renders as its role label, a colon-space, its content and a newline, and a
history within the 10-entry bound renders as the join of its rendered
turns in original order. -/
theorem render_context_example :
    build_context [⟨true, "A"⟩, ⟨false, "B"⟩] = "User: A\nAssistant: B\n" ∧
    (∀ msg : ConversationTurn,
      render_turn msg =
        (if msg.is_user_message then "User" else "Assistant") ++ ": " ++ msg.content ++ "\n") ∧
    ∀ l : List ConversationTurn, l.length ≤ 10 →
      build_context l = String.join (l.map render_turn) := by
  refine ⟨rfl, fun msg => rfl, ?_⟩
  intro l hl
  have hz : l.length - 10 = 0 := by omega
  simp [build_context, hz]

/-- Claim C6 witness: the bounded-history join evaluated at the concrete
two-turn history. -/
theorem render_context_example_witness :
    ([⟨true, "A"⟩, ⟨false, "B"⟩] : List ConversationTurn).length ≤ 10 ∧
    build_context [⟨true, "A"⟩, ⟨false, "B"⟩] =
      String.join (([⟨true, "A"⟩, ⟨false, "B"⟩] : List ConversationTurn).map render_turn) :=
  ⟨by decide, render_context_example.2.2 [⟨true, "A"⟩, ⟨false, "B"⟩] (by decide)⟩

/-- Claim C8: for every first message, when the remote call raises or its
text is empty or missing, `generate_chat_title` returns exactly the fixed
fallback title; the operation is total, hence never raises. -/
theorem chat_title_fallback (first_message : String) (remote : String → RemoteResult)
    (h : remote (chat_title_prompt first_message) = RemoteResult.error ∨
         remote (chat_title_prompt first_message) = RemoteResult.success none ∨
         remote (chat_title_prompt first_message) = RemoteResult.success (some "")) :
    generate_chat_title first_message remote = "New Conversation" := by
  unfold generate_chat_title
  rcases h with h | h | h <;> rw [h] <;> rfl

/-- Claim C8 witness: the raising path evaluated at a concrete call. -/
theorem chat_title_fallback_witness :
    (fun _ => RemoteResult.error) (chat_title_prompt "Hello") = RemoteResult.error ∧
    generate_chat_title "Hello" (fun _ => RemoteResult.error) = "New Conversation" :=
  ⟨rfl, chat_title_fallback "Hello" (fun _ => RemoteResult.error) (Or.inl rfl)⟩

/-- Claim C10: a successful remote response whose text is non-empty but
all whitespace makes `generate_response` return the empty string, which is
neither of the two fixed fallback strings: the truthiness check precedes
the strip. -/
theorem whitespace_text_yields_empty_string :
    ("   " : String) ≠ "" ∧
    (∀ c ∈ ("   " : String).data, c.isWhitespace) ∧
    generate_response "Hi" [] "default" (fun _ => RemoteResult.success (some "   ")) = "" ∧
    ("" : String) ≠ error_fallback ∧
    ("" : String) ≠ empty_fallback := by
  refine ⟨by decide, by decide, ?_, by decide, by decide⟩
  rfl

/-- Claim C4: for a history longer than 10 entries, the rendered context
is built from exactly the last 10 entries — a length-10 suffix of the
history — in their original relative order; the older prefix is dropped. -/
theorem context_last_ten (h : List ConversationTurn) (hlen : 10 < h.length) :
    (h.drop (h.length - 10)).length = 10 ∧
    h.take (h.length - 10) ++ h.drop (h.length - 10) = h ∧
    build_context h = String.join ((h.drop (h.length - 10)).map render_turn) := by
  refine ⟨?_, List.take_append_drop _ _, rfl⟩
  rw [List.length_drop]
  omega

/-- An 11-entry history used to evaluate the truncation claim concretely. -/
def history11 : List ConversationTurn :=
  [⟨true, "m0"⟩, ⟨false, "m1"⟩, ⟨true, "m2"⟩, ⟨false, "m3"⟩, ⟨true, "m4"⟩,
   ⟨false, "m5"⟩, ⟨true, "m6"⟩, ⟨false, "m7"⟩, ⟨true, "m8"⟩, ⟨false, "m9"⟩,
   ⟨true, "m10"⟩]

/-- Claim C4 witness: truncation evaluated at a concrete 11-entry history. -/
theorem context_last_ten_witness :
    10 < history11.length ∧
    ((history11.drop (history11.length - 10)).length = 10 ∧
     history11.take (history11.length - 10) ++ history11.drop (history11.length - 10) =
       history11 ∧
     build_context history11 =
       String.join ((history11.drop (history11.length - 10)).map render_turn)) :=
  ⟨by decide, context_last_ten history11 (by decide)⟩

/-- The length of a Python `[:50]` slice is at most 50. -/
theorem py_slice50_length_le (s : String) : (py_slice50 s).length ≤ 50 := by
  have hd : (py_slice50 s).length = (s.data.take 50).length := rfl
  rw [hd, List.length_take]
  exact min_le_left _ _

/-- Membership in a Python `[:50]` slice implies membership in the string. -/
theorem py_slice50_mem {c : Char} {s : String} (hc : c ∈ (py_slice50 s).data) :
    c ∈ s.data := by
  have hd : (py_slice50 s).data = s.data.take 50 := rfl
  rw [hd] at hc
  exact List.mem_of_mem_take hc

/-- Membership after a single-character deletion: the character survives
the deletion, hence differs from the needle. -/
theorem py_replace_del_mem {c needle : Char} {s : String}
    (hc : c ∈ (py_replace_del needle s).data) : c ∈ s.data ∧ c ≠ needle := by
  have hd : (py_replace_del needle s).data = s.data.filter (fun a => a ≠ needle) := rfl
  rw [hd] at hc
  have hm := List.mem_filter.mp hc
  exact ⟨hm.1, by simpa using hm.2⟩

/-- Claim C7: for every first message, when the remote call succeeds with
non-empty text, the returned title is that text stripped of surrounding
whitespace, with every double-quote and single-quote character deleted,
sliced to the first 50 characters; hence the title has length at most 50
and contains neither quote character. -/
theorem chat_title_sanitized (first_message text : String) (remote : String → RemoteResult)
    (hre : remote (chat_title_prompt first_message) = RemoteResult.success (some text))
    (htx : text ≠ "") :
    generate_chat_title first_message remote =
      py_slice50 (py_replace_del squote (py_replace_del dquote (py_strip text))) ∧
    (generate_chat_title first_message remote).length ≤ 50 ∧
    ∀ c ∈ (generate_chat_title first_message remote).data, c ≠ dquote ∧ c ≠ squote := by
  have heq : generate_chat_title first_message remote =
      py_slice50 (py_replace_del squote (py_replace_del dquote (py_strip text))) := by
    unfold generate_chat_title
    rw [hre]
    simp [text_truthy, htx]
  refine ⟨heq, ?_, ?_⟩
  · rw [heq]
    exact py_slice50_length_le _
  · intro c hc
    rw [heq] at hc
    have h1 := py_slice50_mem hc
    have h2 := py_replace_del_mem h1
    have h3 := py_replace_del_mem h2.1
    exact ⟨h3.2, h2.2⟩

/-- A remote title result longer than 50 characters with embedded quotes. -/
def long_title_text : String :=
  "  \x22A \x27very\x27 long conversation title about many interesting things, themes and more words\x22  "

/-- Claim C7 witness: sanitation evaluated at a concrete long quoted text. -/
theorem chat_title_sanitized_witness :
    long_title_text ≠ "" ∧
    (generate_chat_title "Hello" (fun _ => RemoteResult.success (some long_title_text)) =
       py_slice50 (py_replace_del squote (py_replace_del dquote (py_strip long_title_text))) ∧
     (generate_chat_title "Hello"
        (fun _ => RemoteResult.success (some long_title_text))).length ≤ 50 ∧
     ∀ c ∈ (generate_chat_title "Hello"
              (fun _ => RemoteResult.success (some long_title_text))).data,
       c ≠ dquote ∧ c ≠ squote) :=
  ⟨by decide, chat_title_sanitized "Hello" long_title_text
    (fun _ => RemoteResult.success (some long_title_text)) rfl (by decide)⟩

/-- Claim C9: construction fails when the environment credential is
absent, empty, or the placeholder literal; with any other credential value
the guard passes and construction proceeds with that key. -/
theorem init_guard (env : Option String) :
    ((env = none ∨ env = some "" ∨ env = some api_key_placeholder) →
      ∃ e, init_api_key_check env = Except.error e) ∧
    ∀ key : String, env = some key → key ≠ "" → key ≠ api_key_placeholder →
      init_api_key_check env = Except.ok key := by
  constructor
  · rintro (rfl | rfl | rfl)
    · exact ⟨_, rfl⟩
    · exact ⟨_, rfl⟩
    · exact ⟨_, rfl⟩
  · rintro key rfl hk1 hk2
    simp [init_api_key_check, hk1, hk2]

/-- Claim C9 witness: a non-placeholder key passes the guard, and the
placeholder key is rejected. -/
theorem init_guard_witness :
    ("sk-real-key" : String) ≠ "" ∧
    ("sk-real-key" : String) ≠ api_key_placeholder ∧
    init_api_key_check (some "sk-real-key") = Except.ok "sk-real-key" :=
  ⟨by decide, by decide,
    (init_guard (some "sk-real-key")).2 "sk-real-key" rfl (by decide) (by decide)⟩

/-- Injectivity of the character-list view of strings. -/
theorem string_data_inj {s t : String} (h : s.data = t.data) : s = t := by
  cases s
  cases t
  cases h
  rfl

/-- The character list of an append is the append of the character lists. -/
theorem string_data_append (s t : String) : (s ++ t).data = s.data ++ t.data := rfl

/-- Formalisation of the prompt-composition rule as the claim states it
(system prompt, blank line, then when the rendered context is non-empty
the section header `Conversation history:` with a newline followed
directly by the rendered context, then directly the
`User: <message>` and `Assistant:` tail).  Written from the claim words,
to be compared with `full_prompt`, which is written from the source. -/
def claimed_full_prompt (message : String) (conversation_history : List ConversationTurn)
    (mood : String) : String :=
  if build_context conversation_history ≠ "" then
    system_prompt_for mood ++ "\n\n" ++ "Conversation history:\n"
      ++ build_context conversation_history ++ "User: " ++ message ++ "\nAssistant:"
  else
    system_prompt_for mood ++ "\n\n" ++ "User: " ++ message ++ "\nAssistant:"

set_option maxRecDepth 100000 in
/-- Claim C5 counterexample: with a one-turn history the prompt built by
the source differs from the composition stated by the claim — the source
f-string inserts an extra newline between the rendered context and the
`User:` line, which the claim composition lacks. -/
theorem full_prompt_claim_counterexample :
    full_prompt "Hi" [⟨true, "A"⟩] "default" ≠
      claimed_full_prompt "Hi" [⟨true, "A"⟩] "default" := by
  decide

set_option maxRecDepth 100000 in
/-- Claim C5 (amended): the full prompt is the system prompt, a blank
line, then when the rendered context is non-empty the section
`Conversation history:` and a newline, the rendered context and one more
newline, then `User: <message>` and the `Assistant:` tail with nothing
after it; in particular for message `Hi` with empty history and default
mood the prompt ends exactly with the `User: Hi` / `Assistant:` tail and
contains no `Conversation history:` section. -/
theorem full_prompt_composition (message : String)
    (conversation_history : List ConversationTurn) (mood : String) :
    (full_prompt message conversation_history mood =
       system_prompt_for mood ++ "\n\n"
         ++ (if build_context conversation_history = "" then ""
             else "Conversation history:\n" ++ build_context conversation_history ++ "\n")
         ++ "User: " ++ message ++ "\nAssistant:") ∧
    List.IsSuffix ("User: Hi\nAssistant:" : String).data
      (full_prompt "Hi" [] "default").data ∧
    ¬ List.IsInfix ("Conversation history:" : String).data
      (full_prompt "Hi" [] "default").data := by
  refine ⟨?_, by decide, by decide⟩
  by_cases hc : build_context conversation_history = ""
  · rw [full_prompt, if_neg (by simp [hc]), hc, if_pos rfl]
    apply string_data_inj
    simp [string_data_append, List.append_assoc, List.cons_append]
  · rw [full_prompt, if_pos hc, if_neg hc]
    apply string_data_inj
    simp [string_data_append, List.append_assoc, List.cons_append]
